import Mathlib

/-!
Shallow embedding of the rank_llm reranking core, for checking the
specification claims against the code.

The embedded code:
* `SafeOpenaiBackend._call_completion` (src/rank_llm/rerank/listwise/rank_openai.py,
  lines 167-209), in the configuration used by `run_llm` (CHAT mode with
  `return_text=True`).  The backend network call is abstracted as a function
  from attempt index to an outcome (either a returned completion text, or a
  raised exception with its message string).
* `SafeOpenaiBackend.create_prompt` (lines 262-286), together with
  `get_num_tokens` (lines 288-317) and `num_output_tokens` (lines 230-254).
  The external pieces (the tokenizer `tiktoken.encode`, and the inference
  handler method `generate_prompt`) are abstracted as function parameters.
* `SafeOpenaiBackend.rerank_batch` (lines 135-165); `sliding_windows`
  (inherited from `ListwiseRankLLM`, outside the embedded sources) is a
  function parameter.
* `RankLLM._create_handler` and the construction path of `RankLLM.__init__`
  (src/rank_llm/rerank/rankllm.py, lines 31-72 and 218-250).
* The credential-cursor initialisation of `SafeOpenaiBackend.__init__`
  (rank_openai.py, lines 62-65 and 99-102).

Python integer division `//` is embedded as `Int.fdiv` (floor division) and
Python `%` as `Int.emod` (they agree for a positive modulus, the only case
that occurs).  Python exceptions are embedded as explicit `Except` results or
as dedicated constructors.
-/

/-- Boolean test that the first character list is a prefix of the second. -/
def charsPrefix : List Char → List Char → Bool
  | [], _ => true
  | _ :: _, [] => false
  | a :: as, b :: bs => a == b && charsPrefix as bs

/-- Boolean test that `sub` occurs as a contiguous infix of the second list. -/
def charsContain (sub : List Char) : List Char → Bool
  | [] => charsPrefix sub []
  | c :: rest => charsPrefix sub (c :: rest) || charsContain sub rest

/-- Embedding of the Python substring test `sub in s` on strings. -/
def strContains (s sub : String) : Bool := charsContain sub.data s.data

/-- The marker the code looks for in an exception message to classify a
context-length-exceeded backend error (rank_openai.py line 202). -/
def contextLengthMarker : String := "This model\x27s maximum context length is"

/-- The marker the code looks for in an exception message to classify a
content-filtered backend error (rank_openai.py line 205). -/
def filteredMarker : String := "The response was filtered"

/-- Outcome of one attempted backend chat-completion call, as observed by
`_call_completion`: either the call returns and the extracted message text is
`t`, or the call raises an exception whose string form is `msg`. -/
inductive AttemptOutcome where
  | success (t : String)
  | error (msg : String)
deriving DecidableEq

/-- Result of `_call_completion` as seen by its caller: either a returned
string (a completion text or one of the `ERROR::` sentinels), or the
`UnboundLocalError` raised by `return completion` when no attempt ever
assigned the `completion` variable. -/
inductive CallResult where
  | returned (t : String)
  | raisedUnbound
deriving DecidableEq

/-- Effect of one iteration of the retry loop of `_call_completion`:
an early `return` with a sentinel, a `break` with the completion text, or a
caught exception that lets the loop continue with the (possibly updated)
`completion` variable. -/
inductive StepRes where
  | earlyReturn (s : String)
  | brk (t : String)
  | cont (v : Option String)
deriving DecidableEq

/-- One iteration of the retry loop of `_call_completion`
(rank_openai.py lines 176-208) in CHAT mode with `return_text=True`.
`v` is the current value of the local variable `completion` (`none` when it
has not been assigned yet).  A successful call assigns the extracted text; an
empty text then raises `Exception("Empty completion")`, which the handler
catches (its message matches neither marker) and the loop retries.  A raised
exception leaves `completion` unchanged and is classified by the two
substring tests; unclassified exceptions sleep and retry. -/
def attemptStep (o : AttemptOutcome) (v : Option String) : StepRes :=
  match o with
  | .success t => if t.length = 0 then .cont (some t) else .brk t
  | .error msg =>
    if strContains msg contextLengthMarker then .earlyReturn "ERROR::reduce_length"
    else if strContains msg filteredMarker then .earlyReturn "ERROR::The response was filtered"
    else .cont v

/-- The retry loop `for i in range(3)` of `_call_completion`, with the number
of attempts already made and the current value of the `completion` variable.
Returns the result of the call together with the total number of attempts
performed. -/
def callCompletionAux (backend : Nat → AttemptOutcome) :
    Nat → Nat → Option String → CallResult × Nat
  | 0, made, v =>
    (match v with
     | some t => CallResult.returned t
     | none => CallResult.raisedUnbound, made)
  | fuel + 1, made, v =>
    match attemptStep (backend made) v with
    | .earlyReturn s => (.returned s, made + 1)
    | .brk t => (.returned t, made + 1)
    | .cont v2 => callCompletionAux backend fuel (made + 1) v2

/-- Embedding of `SafeOpenaiBackend._call_completion` (rank_openai.py lines
167-209) in CHAT mode with `return_text=True`, the configuration used by
`run_llm`.  `backend i` is the behaviour of the i-th attempted call. -/
def _call_completion (backend : Nat → AttemptOutcome) : CallResult :=
  (callCompletionAux backend 3 0 none).1

/-- Number of backend attempts `_call_completion` performs for a given
backend behaviour. -/
def callCompletionAttempts (backend : Nat → AttemptOutcome) : Nat :=
  (callCompletionAux backend 3 0 none).2

/-- A chat message, embedded as the ordered key/value pairs of the Python
dict (rank_openai.py iterates `message.items()`). -/
abbrev Message := List (String × String)

/-- A prompt as accepted by `get_num_tokens`: either a plain string or a
list of chat messages. -/
inductive Prompt where
  | text (s : String)
  | messages (ms : List Message)

/-- Embedding of `SafeOpenaiBackend.get_num_tokens` (rank_openai.py lines
288-317).  The tokenizer is abstracted as `encodeLen s = len(encoding.encode(s))`. -/
def get_num_tokens (encodeLen : String → Nat) (model : String) (prompt : Prompt) : Int :=
  let tp : Int × Int :=
    if model ∈ (["gpt-3.5-turbo-0301", "gpt-3.5-turbo"] : List String) then (4, -1)
    else if model ∈ (["gpt-4-0314", "gpt-4"] : List String) then (3, 1)
    else (0, 0)
  let body : Int :=
    match prompt with
    | .messages ms =>
      ms.foldl (fun acc m =>
        m.foldl (fun a kv =>
          a + (encodeLen kv.2 : Int) + (if kv.1 = "name" then tp.2 else 0)) (acc + tp.1)) 0
    | .text s => (encodeLen s : Int)
  body + 3

/-- The string `" > ".join([f"[{i+1}]" for i in range(w)])` whose token count
estimates the model output size (rank_openai.py line 244). -/
def rankingEstimateString (w : Nat) : String :=
  String.intercalate " > " ((List.range w).map (fun i => "[" ++ toString (i + 1) ++ "]"))

/-- Embedding of `SafeOpenaiBackend.num_output_tokens` (rank_openai.py lines
230-254) called with no argument, so `current_window_size` is the configured
window size.  The memoisation in `_output_token_estimate` does not change the
returned value, so the embedding computes it directly. -/
def num_output_tokens (encodeLen : String → Nat) (window_size : Int) : Int :=
  (encodeLen (rankingEstimateString window_size.toNat) : Int) - 1

/-- The `while True` shrink loop of `SafeOpenaiBackend.create_prompt`
(rank_openai.py lines 267-284).  `gen ml` is the measured token count
`get_num_tokens(generate_prompt(..., max_length=ml))`, `budget` is
`max_tokens() - num_output_tokens()` and `w4` is
`(rank_end - rank_start) * 4`.  The loop in the code has no exit other than
the fits check, so the embedding runs it on fuel; `none` means the loop is
still running after `fuel` iterations. -/
def createPromptLoop (gen : Int → Int) (budget w4 : Int) : Nat → Int → Option (Int × Int)
  | 0, _ => none
  | fuel + 1, max_length =>
    let num_tokens := gen max_length
    if num_tokens ≤ budget then some (max_length, num_tokens)
    else
      createPromptLoop gen budget w4 fuel
        (max_length - max 1 (Int.fdiv (num_tokens - budget) w4))

/-- The value of the `max_length` variable of the shrink loop of
`create_prompt` after `k` iterations (stopping early once the prompt fits);
an observer of the same loop used to state facts about intermediate
budgets. -/
def shrinkIter (gen : Int → Int) (budget w4 : Int) : Nat → Int → Int
  | 0, ml => ml
  | k + 1, ml =>
    let num_tokens := gen ml
    if num_tokens ≤ budget then ml
    else shrinkIter gen budget w4 k (ml - max 1 (Int.fdiv (num_tokens - budget) w4))

/-- Python runtime errors surfaced by the embedded `create_prompt`. -/
inductive PyError where
  | zeroDivisionError
deriving DecidableEq

/-- Embedding of `SafeOpenaiBackend.create_prompt` (rank_openai.py lines
262-286).  `generate ml` abstracts
`self._inference_handler.generate_prompt(..., max_length=ml, ...)` (the
handler lives outside the embedded sources), `encodeLen` abstracts the
tiktoken encoder, and `max_tokens` abstracts `self.max_tokens()`.  The
initial budget `300 * (window_size // (rank_end - rank_start))` raises
`ZeroDivisionError` when `rank_end == rank_start`.  A `some (ml, nt)` result
is the returned pair: the prompt is `generate ml` and `nt` its token count;
`none` means the loop had not terminated after `fuel` iterations. -/
def create_prompt (generate : Int → Prompt) (encodeLen : String → Nat) (model : String)
    (max_tokens window_size rank_start rank_end : Int) (fuel : Nat) :
    Except PyError (Option (Int × Int)) :=
  if rank_end - rank_start = 0 then .error .zeroDivisionError
  else
    .ok (createPromptLoop
      (fun ml => get_num_tokens encodeLen model (generate ml))
      (max_tokens - num_output_tokens encodeLen window_size)
      ((rank_end - rank_start) * 4)
      fuel
      (300 * Int.fdiv window_size (rank_end - rank_start)))

/-- The inference-handler strategies `_create_handler` can construct
(rankllm.py lines 218-246). -/
inductive HandlerKind where
  | singleturnListwise
  | multiturnListwise
  | rankfid
  | pointwise
  | pairwise
deriving DecidableEq

/-- Python exceptions raised along the construction path of `RankLLM`. -/
inductive PyExn where
  | keyError
  | valueError (msg : String)
deriving DecidableEq

/-- The body of the `try` block of `RankLLM._create_handler` (rankllm.py
lines 236-248): `template["method"]` raises `KeyError` when the field is
missing; an unrecognized value raises `ValueError("Invalid template method")`. -/
def createHandlerBody (method : Option String) : Except PyExn HandlerKind :=
  match method with
  | none => .error .keyError
  | some m =>
    if m = "singleturn_listwise" then .ok .singleturnListwise
    else if m = "multiturn_listwise" then .ok .multiturnListwise
    else if m = "rankfid" then .ok .rankfid
    else if m = "pointwise" then .ok .pointwise
    else if m = "pairwise" then .ok .pairwise
    else .error (.valueError "Invalid template method")

/-- Embedding of `RankLLM._create_handler` (rankllm.py lines 218-250): the
bare `except` catches every exception of the body and re-raises
`ValueError("Please provide a method section in the template")`. -/
def _create_handler (method : Option String) : Except PyExn HandlerKind :=
  match createHandlerBody method with
  | .ok h => .ok h
  | .error _ => .error (.valueError "Please provide a method section in the template")

/-- Outcome of opening and parsing the template file in `RankLLM.__init__`:
either the file is missing, or it loads and its `method` field is `method`
(`none` when the field is absent). -/
inductive TemplateLoad where
  | fileNotFound
  | loaded (method : Option String)

/-- The handler-construction path of `RankLLM.__init__` (rankllm.py lines
51-63): a missing file becomes `ValueError("Prompt template file missing or
not found")`; otherwise `_create_handler` runs on the loaded template and
any `ValueError` it raises propagates (the `except` clause only catches
`FileNotFoundError`). -/
def rankLLM_init (load : TemplateLoad) : Except PyExn HandlerKind :=
  match load with
  | .fileNotFound => .error (.valueError "Prompt template file missing or not found")
  | .loaded m => _create_handler m

/-- The `keys` argument of `SafeOpenaiBackend.__init__`: Python `None`, a
single string, or a list of strings. -/
inductive KeysArg where
  | noKeys
  | oneKey (s : String)
  | keyList (l : List String)

/-- The key normalisation of `SafeOpenaiBackend.__init__` (rank_openai.py
lines 62-65): a single string is wrapped in a list; a falsy value (`None` or
the empty list) raises `ValueError`, embedded as `none`. -/
def normalizeKeys : KeysArg → Option (List String)
  | .noKeys => none
  | .oneKey s => some [s]
  | .keyList l => if l.isEmpty then none else some l

/-- The credential-cursor initialisation of `SafeOpenaiBackend.__init__`
(rank_openai.py lines 101-102): `self._cur_key_id = key_start_id or 0`
followed by `self._cur_key_id %= len(self._keys)`.  Since `0` is the only
falsy int, `key_start_id or 0` equals `key_start_id.getD 0`; Python `%` with
the positive modulus `len(keys)` agrees with `Int.emod`. -/
def initCurKeyId (keys : List String) (key_start_id : Option Int) : Int :=
  (key_start_id.getD 0) % (keys.length : Int)

/-- Modelled from the spec: a Candidate is an identifier, a prior score and
a content payload (the `rank_llm.data.Candidate` class lives outside the
embedded sources). -/
structure Candidate where
  docid : String
  score : Int
  doc : String

/-- Modelled from the spec: a Request is a query plus an ordered sequence of
Candidates (the `rank_llm.data.Request` class lives outside the embedded
sources). -/
structure Request where
  query : String
  candidates : List Candidate

/-- Embedding of `SafeOpenaiBackend.rerank_batch` (rank_openai.py lines
135-165).  `sliding_windows` (inherited from `ListwiseRankLLM`, outside the
embedded sources) is a parameter taking the request, `rank_start`,
`rank_end`, `window_size`, `stride`, `shuffle_candidates`, `logging` and
`populate_invocations_history`; `α` is its result type.  The `for` loop over
`requests` appending to `results` is embedded as a left fold. -/
def rerank_batch {α : Type}
    (sliding_windows : Request → Int → Int → Int → Int → Bool → Bool → Bool → α)
    (requests : List Request) (rank_start rank_end : Int)
    (shuffle_candidates logging : Bool)
    (top_k_retrieve : Option Int) (window_size stride : Int)
    (populate_invocations_history : Bool) : List α :=
  let top_k := top_k_retrieve.getD rank_end
  let re := min top_k rank_end
  let ws := min window_size top_k
  requests.foldl
    (fun results request =>
      results ++ [sliding_windows request (max rank_start 0)
        (min re (request.candidates.length : Int)) ws stride
        shuffle_candidates logging populate_invocations_history])
    []

/-- A context-length-exceeded error message as reported by the OpenAI API. -/
def ctxErrMsg : String :=
  "Error code: 400 - This model\x27s maximum context length is 4097 tokens."

/-- A content-filter error message as reported by the Azure OpenAI API. -/
def filterErrMsg : String :=
  "The response was filtered due to the prompt triggering content management policy."

/-- A backend behaviour whose first attempt yields an empty completion and
whose later attempts yield a fixed nonempty ranking string. -/
def emptyThenOkBackend : Nat → AttemptOutcome :=
  fun i => if i = 0 then .success "" else .success "[2] > [1]"

/-- A token-count function (composition of the prompt generator and
`get_num_tokens`) that reports 11 tokens at every per-candidate budget: a
renderer whose fixed overhead alone exceeds a budget of 10, so the prompt
never fits no matter how far the budget shrinks. -/
def constGen11 : Int → Int := fun _ => 11

/-- A concrete prompt generator used to instantiate `create_prompt`. -/
def wGen : Int → Prompt := fun _ => Prompt.text "sample query"

/-- A concrete tokenizer abstraction, counting one token per character. -/
def wEnc : String → Nat := fun s => s.length

/-- Every run of the retry loop performs at least `made` attempts in total. -/
theorem callCompletionAux_made_le (b : Nat → AttemptOutcome) :
    ∀ fuel made v, made ≤ (callCompletionAux b fuel made v).2 := by
  intro fuel
  induction fuel with
  | zero => intro made v; simp [callCompletionAux]
  | succ f ih =>
    intro made v
    simp only [callCompletionAux]
    cases attemptStep (b made) v with
    | earlyReturn s => simp
    | brk t => simp
    | cont v2 => exact Nat.le_trans (Nat.le_succ made) (ih (made + 1) v2)

/-- The retry loop performs at most `made + fuel` attempts in total. -/
theorem callCompletionAux_le_fuel (b : Nat → AttemptOutcome) :
    ∀ fuel made v, (callCompletionAux b fuel made v).2 ≤ made + fuel := by
  intro fuel
  induction fuel with
  | zero => intro made v; simp [callCompletionAux]
  | succ f ih =>
    intro made v
    simp only [callCompletionAux]
    cases attemptStep (b made) v with
    | earlyReturn s => simp
    | brk t => simp
    | cont v2 => exact Nat.le_trans (ih (made + 1) v2) (by omega)

/-- With fuel left, the retry loop performs at least one further attempt. -/
theorem callCompletionAux_one_more (b : Nat → AttemptOutcome) :
    ∀ fuel made v, 1 ≤ fuel → made + 1 ≤ (callCompletionAux b fuel made v).2 := by
  intro fuel made v hf
  obtain ⟨f, rfl⟩ : ∃ f, fuel = f + 1 := ⟨fuel - 1, by omega⟩
  simp only [callCompletionAux]
  cases attemptStep (b made) v with
  | earlyReturn s => simp
  | brk t => simp
  | cont v2 => exact callCompletionAux_made_le b f (made + 1) v2

/-- C1: the claim states that when all retry attempts of the backend call
fail, `_call_completion` propagates the classified failure and never
silently returns an empty response text.  The code violates this: when every
one of the 3 attempts succeeds at the transport level but yields an empty
completion text, each attempt raises `Exception("Empty completion")` and is
retried, yet after the loop exhausts, `return completion` returns the empty
string assigned by the last attempt — a silently empty response, not a
propagated failure. -/
theorem callCompletion_silent_empty :
    _call_completion (fun _ => .success "") = .returned "" ∧
    callCompletionAttempts (fun _ => .success "") = 3 := by
  constructor <;> rfl

/-- C5: when the attempt the loop is about to make raises an error whose
message reports context length exceeded or content filtering, the retry loop
of `_call_completion` returns the corresponding sentinel at once, performing
exactly that one attempt and never retrying (so in particular, for
`_call_completion backend = (callCompletionAux backend 3 0 none).1`, a
classified error on the first attempt ends the call after one attempt). -/
theorem callCompletion_shortCircuits (backend : Nat → AttemptOutcome) (fuel made : Nat)
    (v : Option String) (msg : String) (hf : 1 ≤ fuel) (hb : backend made = .error msg) :
    (strContains msg contextLengthMarker = true →
      callCompletionAux backend fuel made v =
        (.returned "ERROR::reduce_length", made + 1)) ∧
    (strContains msg contextLengthMarker = false →
      strContains msg filteredMarker = true →
      callCompletionAux backend fuel made v =
        (.returned "ERROR::The response was filtered", made + 1)) := by
  obtain ⟨f, rfl⟩ : ∃ f, fuel = f + 1 := ⟨fuel - 1, by omega⟩
  refine ⟨fun h1 => ?_, fun h1 h2 => ?_⟩
  · simp [callCompletionAux, attemptStep, hb, h1]
  · simp [callCompletionAux, attemptStep, hb, h1, h2]



/-- Witness for C5 at two concrete backend behaviours: a first-attempt
context-length error yields the reduce_length sentinel after one attempt, and
a first-attempt content-filter error yields the filtered sentinel after one
attempt. -/
theorem callCompletion_shortCircuits_witness :
    callCompletionAux (fun _ => .error ctxErrMsg) 3 0 none =
      (.returned "ERROR::reduce_length", 1) ∧
    callCompletionAux (fun _ => .error filterErrMsg) 3 0 none =
      (.returned "ERROR::The response was filtered", 1) :=
  ⟨(callCompletion_shortCircuits (fun _ => .error ctxErrMsg) 3 0 none ctxErrMsg
      (by decide) rfl).1 (by decide),
   (callCompletion_shortCircuits (fun _ => .error filterErrMsg) 3 0 none filterErrMsg
      (by decide) rfl).2 (by decide) (by decide)⟩

/-- C6: when the first backend chat completion succeeds but returns text of
length zero, `_call_completion` does not return that empty text on that
attempt: it retries, so at least 2 and at most 3 total attempts are made,
and if the second attempt returns nonempty text the call returns that text
after exactly 2 attempts. -/
theorem emptyCompletion_retried (backend : Nat → AttemptOutcome)
    (h0 : backend 0 = .success "") :
    2 ≤ callCompletionAttempts backend ∧ callCompletionAttempts backend ≤ 3 ∧
    (∀ t : String, backend 1 = .success t → t.length ≠ 0 →
      _call_completion backend = .returned t ∧ callCompletionAttempts backend = 2) := by
  refine ⟨?_, ?_, fun t h1 hlen => ?_⟩
  · unfold callCompletionAttempts
    have h := callCompletionAux_one_more backend 2 1 (some "") (by omega)
    simp only [callCompletionAux, attemptStep, h0, String.length, if_pos rfl]
    simpa using h
  · exact callCompletionAux_le_fuel backend 3 0 none
  · unfold _call_completion callCompletionAttempts
    simp [callCompletionAux, attemptStep, h0, h1, hlen]


/-- Witness for C6 at a concrete backend behaviour: an empty first completion
followed by a nonempty second one gives that second text after exactly two
attempts. -/
theorem emptyCompletion_retried_witness :
    2 ≤ callCompletionAttempts emptyThenOkBackend ∧
    callCompletionAttempts emptyThenOkBackend ≤ 3 ∧
    (_call_completion emptyThenOkBackend = .returned "[2] > [1]" ∧
      callCompletionAttempts emptyThenOkBackend = 2) := by
  obtain ⟨h1, h2, h3⟩ := emptyCompletion_retried emptyThenOkBackend rfl
  exact ⟨h1, h2, h3 "[2] > [1]" rfl (by decide)⟩

/-- The shrink loop only exits through the fits check: any returned pair is
a budget whose measured token count is within the token budget. -/
theorem createPromptLoop_fits (gen : Int → Int) (budget w4 : Int) :
    ∀ fuel ml mlf nt, createPromptLoop gen budget w4 fuel ml = some (mlf, nt) →
      nt = gen mlf ∧ nt ≤ budget := by
  intro fuel
  induction fuel with
  | zero => intro ml mlf nt h; simp [createPromptLoop] at h
  | succ f ih =>
    intro ml mlf nt h
    rw [createPromptLoop] at h
    split at h
    · rename_i hc
      simp only [Option.some.injEq, Prod.mk.injEq] at h
      obtain ⟨h1, h2⟩ := h
      subst h1; subst h2
      exact ⟨rfl, hc⟩
    · rename_i hc
      exact ih _ _ _ h

/-- C2: whenever `create_prompt` returns a pair (prompt, token count), the
token count equals `get_num_tokens` of the returned prompt and is at most
`max_tokens() - num_output_tokens()`: the Prompt Builder never returns a
prompt whose measured token count exceeds the context limit minus the
reserved output tokens. -/
theorem create_prompt_token_bound (generate : Int → Prompt) (encodeLen : String → Nat)
    (model : String) (max_tokens window_size rank_start rank_end : Int) (fuel : Nat)
    (ml nt : Int)
    (h : create_prompt generate encodeLen model max_tokens window_size rank_start rank_end
        fuel = .ok (some (ml, nt))) :
    nt = get_num_tokens encodeLen model (generate ml) ∧
    nt ≤ max_tokens - num_output_tokens encodeLen window_size := by
  unfold create_prompt at h
  split at h
  · simp at h
  · simp only [Except.ok.injEq] at h
    exact createPromptLoop_fits _ _ _ _ _ _ _ h

/-- Witness for C2 at a concrete instantiation: with a 12-character query
prompt, a per-character tokenizer, window size 4 and context limit 100, the
loop returns at once with 15 tokens, within the budget. -/
theorem create_prompt_token_bound_witness :
    (15 : Int) = get_num_tokens wEnc "m" (wGen 600) ∧
    (15 : Int) ≤ 100 - num_output_tokens wEnc 4 :=
  create_prompt_token_bound wGen wEnc "m" 100 4 0 2 1 600 15 (by rfl)

/-- With a token count that always reports 11 against a budget of 10, the
shrink loop never exits, whatever fuel it is given. -/
theorem constGen11_loop_none : ∀ fuel ml, createPromptLoop constGen11 10 4 fuel ml = none := by
  intro fuel
  induction fuel with
  | zero => intro ml; rfl
  | succ f ih =>
    intro ml
    simp only [createPromptLoop, constGen11]
    rw [if_neg (by norm_num)]
    exact ih _

/-- With the same never-fitting token count, each loop iteration decreases
the budget by exactly 1, so after k iterations the budget variable holds
ml - k. -/
theorem constGen11_iter_eq : ∀ k ml, shrinkIter constGen11 10 4 k ml = ml - k := by
  intro k
  induction k with
  | zero => intro ml; simp [shrinkIter]
  | succ n ih =>
    intro ml
    simp only [shrinkIter, constGen11]
    rw [if_neg (by norm_num)]
    rw [ih]
    have hmax : max (1:Int) (Int.fdiv (11 - 10) 4) = 1 := by decide
    rw [hmax]
    push_cast
    ring

/-- C3 counterexample: the claim asserts the shrink loop stops at a minimum
budget floor and fails with a PromptTooLarge condition; in the code, with a
renderer whose prompt never fits a budget of 10 (`constGen11`), after 350
iterations the per-candidate budget has sunk to -50 — below any positive
floor — and the loop is still running: no failure of any kind is raised. -/
theorem create_prompt_floor_counterexample :
    shrinkIter constGen11 10 4 350 300 = -50 ∧
    createPromptLoop constGen11 10 4 350 300 = none := by
  constructor
  · rw [constGen11_iter_eq]; norm_num
  · exact constGen11_loop_none 350 300

/-- When no budget at or below the starting one makes the prompt fit, the
shrink loop never exits, whatever fuel it is given. -/
theorem createPromptLoop_never_fits (gen : Int → Int) (budget w4 ml0 : Int)
    (hnever : ∀ ml, ml ≤ ml0 → budget < gen ml) :
    ∀ fuel ml, ml ≤ ml0 → createPromptLoop gen budget w4 fuel ml = none := by
  intro fuel
  induction fuel with
  | zero => intro ml _; rfl
  | succ f ih =>
    intro ml hml
    have hov := hnever ml hml
    simp only [createPromptLoop]
    rw [if_neg (by omega)]
    refine ih _ ?_
    have h1 : (1:Int) ≤ max 1 (Int.fdiv (gen ml - budget) w4) := le_max_left _ _
    omega

/-- When no budget at or below the starting one makes the prompt fit, the
budget variable falls by at least 1 per iteration, without lower bound. -/
theorem shrinkIter_descends (gen : Int → Int) (budget w4 ml0 : Int)
    (hnever : ∀ ml, ml ≤ ml0 → budget < gen ml) :
    ∀ k ml, ml ≤ ml0 → shrinkIter gen budget w4 k ml ≤ ml - k := by
  intro k
  induction k with
  | zero => intro ml _; simp [shrinkIter]
  | succ n ih =>
    intro ml hml
    have hov := hnever ml hml
    simp only [shrinkIter]
    rw [if_neg (by omega)]
    have h1 : (1:Int) ≤ max 1 (Int.fdiv (gen ml - budget) w4) := le_max_left _ _
    have h2 := ih (ml - max 1 (Int.fdiv (gen ml - budget) w4)) (by omega)
    push_cast
    push_cast at h2
    omega

/-- C3 (amended): the shrink loop of `create_prompt` repeats until the
rendered prompt fits the token budget; the code has no minimum per-candidate
budget floor and no PromptTooLarge failure: when no reachable budget makes
the prompt fit, the loop never exits (for every amount of fuel) and the
budget keeps decreasing by at least 1 per iteration, below any floor. -/
theorem shrink_loop_no_floor (gen : Int → Int) (budget w4 ml0 : Int)
    (hnever : ∀ ml, ml ≤ ml0 → budget < gen ml) :
    (∀ fuel, createPromptLoop gen budget w4 fuel ml0 = none) ∧
    (∀ k, shrinkIter gen budget w4 k ml0 ≤ ml0 - k) :=
  ⟨fun fuel => createPromptLoop_never_fits gen budget w4 ml0 hnever fuel ml0 le_rfl,
   fun k => shrinkIter_descends gen budget w4 ml0 hnever k ml0 le_rfl⟩

/-- Witness for the amended C3 at a concrete never-fitting renderer: after
120 iterations the loop is still running and the budget is down to at most
180. -/
theorem shrink_loop_no_floor_witness :
    createPromptLoop constGen11 10 4 120 300 = none ∧
    shrinkIter constGen11 10 4 120 300 ≤ 180 := by
  have h := shrink_loop_no_floor constGen11 10 4 300 (fun ml _ => by norm_num [constGen11])
  refine ⟨h.1 120, ?_⟩
  have h2 := h.2 120
  omega

/-- C4 counterexample: the claim asserts the shrink loop terminates after a
bounded number of iterations for every window with rank_start < rank_end;
with the never-fitting token count `constGen11` (fixed overhead above the
budget) the loop is still running after one million iterations. -/
theorem shrink_bounded_counterexample :
    createPromptLoop constGen11 10 4 1000000 300 = none :=
  constGen11_loop_none 1000000 300

/-- C4 (amended): each non-fitting iteration of the shrink loop decreases
`max_length` by exactly `max 1 ((num_tokens - budget) // (4*(rank_end -
rank_start)))` — hence by at least 1 and by at least the
overflow-proportional share — but the code gives the loop no a-priori
iteration bound: it terminates only when some reachable budget yields a
fitting prompt. -/
theorem shrink_step_decrease (gen : Int → Int) (budget w4 ml : Int) (fuel : Nat)
    (hover : budget < gen ml) :
    createPromptLoop gen budget w4 (fuel + 1) ml
      = createPromptLoop gen budget w4 fuel
          (ml - max 1 (Int.fdiv (gen ml - budget) w4)) ∧
    ml - max 1 (Int.fdiv (gen ml - budget) w4) ≤ ml - 1 ∧
    ml - max 1 (Int.fdiv (gen ml - budget) w4) ≤ ml - Int.fdiv (gen ml - budget) w4 := by
  refine ⟨?_, ?_, ?_⟩
  · simp only [createPromptLoop]
    rw [if_neg (by omega)]
  · have := le_max_left (1:Int) (Int.fdiv (gen ml - budget) w4)
    omega
  · have := le_max_right (1:Int) (Int.fdiv (gen ml - budget) w4)
    omega

/-- Witness for the amended C4 at a concrete overflowing iteration: one step
from budget 300 continues the loop at the decreased budget. -/
theorem shrink_step_decrease_witness :
    createPromptLoop constGen11 10 4 3 300
      = createPromptLoop constGen11 10 4 2
          (300 - max 1 (Int.fdiv (constGen11 300 - 10) 4)) ∧
    300 - max 1 (Int.fdiv (constGen11 300 - 10) 4) ≤ (300:Int) - 1 ∧
    300 - max 1 (Int.fdiv (constGen11 300 - 10) 4)
      ≤ 300 - Int.fdiv (constGen11 300 - 10) 4 :=
  shrink_step_decrease constGen11 10 4 300 2 (by decide)

/-- C10: calling `create_prompt` with `rank_end` equal to `rank_start`
raises ZeroDivisionError at the initial budget computation
`300 * (window_size // (rank_end - rank_start))`; under the precondition
`rank_start < rank_end` the division is defined and the error branch is
unreachable. -/
theorem create_prompt_zero_div (generate : Int → Prompt) (encodeLen : String → Nat)
    (model : String) (max_tokens window_size rank_start rank_end : Int) (fuel : Nat) :
    (rank_end = rank_start →
      create_prompt generate encodeLen model max_tokens window_size rank_start rank_end fuel
        = .error .zeroDivisionError) ∧
    (rank_start < rank_end →
      ∃ r, create_prompt generate encodeLen model max_tokens window_size rank_start rank_end
        fuel = .ok r) := by
  constructor
  · intro h
    unfold create_prompt
    rw [if_pos (by omega)]
  · intro h
    unfold create_prompt
    rw [if_neg (by omega)]
    exact ⟨_, rfl⟩

/-- Witness for C10 at concrete ranks: rank_start = rank_end = 5 raises
ZeroDivisionError, while rank_start = 0 < 2 = rank_end returns normally. -/
theorem create_prompt_zero_div_witness :
    create_prompt wGen wEnc "m" 100 4 5 5 1 = .error .zeroDivisionError ∧
    ∃ r, create_prompt wGen wEnc "m" 100 4 0 2 1 = .ok r :=
  ⟨(create_prompt_zero_div wGen wEnc "m" 100 4 5 5 1).1 rfl,
   (create_prompt_zero_div wGen wEnc "m" 100 4 0 2 1).2 (by norm_num)⟩

/-- Folding an append of one mapped element over a list, as the Python
`for request in requests: results.append(...)` loop does, produces the map
of the list appended to the accumulator. -/
theorem foldl_append_singleton {α β : Type} (g : α → β) (l : List α) :
    ∀ acc : List β, l.foldl (fun results x => results ++ [g x]) acc = acc ++ l.map g := by
  induction l with
  | nil => intro acc; simp
  | cons x xs ih => intro acc; simp [ih]

/-- C7: `rerank_batch` returns exactly one result per input request, in the
same order as the input list, the i-th produced by one complete
`sliding_windows` call on the i-th request (with the clamped rank range and
window size); the loop is a sequential fold with no interaction between
requests. -/
theorem rerank_batch_one_per_request {α : Type}
    (sliding_windows : Request → Int → Int → Int → Int → Bool → Bool → Bool → α)
    (requests : List Request) (rank_start rank_end : Int)
    (shuffle_candidates logging : Bool) (top_k_retrieve : Option Int)
    (window_size stride : Int) (populate_invocations_history : Bool) :
    rerank_batch sliding_windows requests rank_start rank_end shuffle_candidates logging
        top_k_retrieve window_size stride populate_invocations_history
      = requests.map (fun request =>
          sliding_windows request (max rank_start 0)
            (min (min (top_k_retrieve.getD rank_end) rank_end)
              (request.candidates.length : Int))
            (min window_size (top_k_retrieve.getD rank_end)) stride
            shuffle_candidates logging populate_invocations_history) ∧
    (rerank_batch sliding_windows requests rank_start rank_end shuffle_candidates logging
        top_k_retrieve window_size stride populate_invocations_history).length
      = requests.length := by
  have h := foldl_append_singleton
    (fun request =>
      sliding_windows request (max rank_start 0)
        (min (min (top_k_retrieve.getD rank_end) rank_end)
          (request.candidates.length : Int))
        (min window_size (top_k_retrieve.getD rank_end)) stride
        shuffle_candidates logging populate_invocations_history)
    requests []
  have heq : rerank_batch sliding_windows requests rank_start rank_end shuffle_candidates
      logging top_k_retrieve window_size stride populate_invocations_history
      = requests.map (fun request =>
          sliding_windows request (max rank_start 0)
            (min (min (top_k_retrieve.getD rank_end) rank_end)
              (request.candidates.length : Int))
            (min window_size (top_k_retrieve.getD rank_end)) stride
            shuffle_candidates logging populate_invocations_history) := by
    simpa [rerank_batch] using h
  exact ⟨heq, by rw [heq]; simp⟩

/-- C8: loading a template whose `method` field is missing, or whose method
names an unrecognized strategy, makes `_create_handler` — invoked from
`RankLLM.__init__` during construction — raise a ValueError; the error is
not deferred to ranking-call time. -/
theorem createHandler_rejects_bad_method (m : Option String)
    (h : ∀ s, m = some s →
      s ∉ (["singleturn_listwise", "multiturn_listwise", "rankfid", "pointwise",
            "pairwise"] : List String)) :
    rankLLM_init (.loaded m)
      = .error (.valueError "Please provide a method section in the template") := by
  cases m with
  | none => rfl
  | some s =>
    have hs := h s rfl
    simp only [List.mem_cons, List.not_mem_nil, or_false, not_or] at hs
    obtain ⟨h1, h2, h3, h4, h5⟩ := hs
    simp [rankLLM_init, _create_handler, createHandlerBody, h1, h2, h3, h4, h5]

/-- Witness for C8 at two concrete templates: a missing `method` field and
the unrecognized method `"listwise"` both raise the construction-time
ValueError. -/
theorem createHandler_rejects_bad_method_witness :
    rankLLM_init (.loaded none)
        = .error (.valueError "Please provide a method section in the template") ∧
    rankLLM_init (.loaded (some "listwise"))
        = .error (.valueError "Please provide a method section in the template") := by
  constructor
  · exact createHandler_rejects_bad_method none (by intro s hs; cases hs)
  · refine createHandler_rejects_bad_method (some "listwise") ?_
    intro s hs
    injection hs with hv
    subst hv
    decide

/-- C9: after construction of `SafeOpenaiBackend` with a non-empty key
list, the credential cursor `_cur_key_id` is a valid in-range index into
`_keys`, for every `key_start_id` value — absent (`None`), zero, negative,
or larger than the pool size. -/
theorem initCurKeyId_in_range (keys : List String) (key_start_id : Option Int)
    (h : keys ≠ []) :
    0 ≤ initCurKeyId keys key_start_id ∧
    initCurKeyId keys key_start_id < (keys.length : Int) := by
  have hlen : (0:Int) < (keys.length : Int) := by
    have hpos : 0 < keys.length := List.length_pos.mpr h
    exact_mod_cast hpos
  exact ⟨Int.emod_nonneg _ (by omega), Int.emod_lt_of_pos _ hlen⟩

/-- Witness for C9 at a concrete two-key pool and a negative start index:
the cursor lands in range. -/
theorem initCurKeyId_in_range_witness :
    0 ≤ initCurKeyId ["key-a", "key-b"] (some (-7)) ∧
    initCurKeyId ["key-a", "key-b"] (some (-7))
      < ((["key-a", "key-b"] : List String).length : Int) :=
  initCurKeyId_in_range ["key-a", "key-b"] (some (-7)) (by decide)
